import Mathlib

/-!
Formal model of the reservation hold workflow
(cloudflare-vs-aws-durable-workflows).

The repository implements the same reservation state machine twice:

* a Cloudflare Workflow (`src/cf-workflow/src/index.ts` for the HTTP
  confirm handler and the `ReservationWorkflow` class for the
  create-hold / sleep / finalize steps), and
* an AWS Lambda durable function
  (`src/aws-durable_functions/reservation-workflow/app.ts`).

Timestamps are modelled as natural numbers (milliseconds since epoch);
the ISO-8601 strings of the source serialize these losslessly and their
ordering agrees with numeric ordering.  The KV store entry for one
reservation id is modelled as an `Option ReservationData` (`none` when
the key is absent), and each handler is a pure function from the stored
value and the current time to a result together with the new stored
value.
-/

/-- Reservation status, from `ReservationStatus` in the Cloudflare
workflow source (`'pending' | 'held' | 'confirmed' | 'expired'`). -/
inductive ReservationStatus : Type
  | pending : ReservationStatus
  | held : ReservationStatus
  | confirmed : ReservationStatus
  | expired : ReservationStatus
  deriving DecidableEq, Repr

/-- The reservation record stored in KV, from the `ReservationData`
interface of the Cloudflare workflow source. -/
structure ReservationData : Type where
  reservationId : String
  seatId : String
  userId : Option String
  status : ReservationStatus
  createdAt : Nat
  expiresAt : Nat
  confirmedAt : Option Nat
  expiredAt : Option Nat
  deriving DecidableEq, Repr

/-- The hold duration: `15 * 60 * 1000` milliseconds, hard-coded in the
create-hold step of both variants (`now.getTime() + 15 * 60 * 1000`). -/
def holdDurationMs : Nat := 15 * 60 * 1000

/-- The create-hold step body (Cloudflare `create-hold` step; AWS STEP 1
builds the identical record): a fresh record with status `held`,
`createdAt = now`, `expiresAt = now + 15 minutes`, and no terminal
timestamps. -/
def createHold (reservationId seatId : String) (userId : Option String)
    (now : Nat) : ReservationData :=
  { reservationId := reservationId
    seatId := seatId
    userId := userId
    status := ReservationStatus.held
    createdAt := now
    expiresAt := now + holdDurationMs
    confirmedAt := none
    expiredAt := none }

/-- Outcome of the `POST /confirm/:id` handler, one constructor per
return site of the handler in `src/cf-workflow/src/index.ts`.  Each
constructor that carries a `ReservationData` corresponds to a JSON
response whose body includes a `reservation` field. -/
inductive ConfirmResult : Type
  | notFound : ConfirmResult
  | alreadyConfirmed : ReservationData → ConfirmResult
  | alreadyExpired : ReservationData → ConfirmResult
  | invalidStatus : ReservationData → ConfirmResult
  | expiredOnConfirm : ReservationData → ConfirmResult
  | confirmedOk : ReservationData → ConfirmResult
  deriving DecidableEq, Repr

/-- The HTTP status code attached to each return site of the confirm
handler: 404 not found, 200 already confirmed, 410 already expired,
400 unconfirmable status, 410 expired at confirmation time, 200
confirmed. -/
def ConfirmResult.httpStatus : ConfirmResult → Nat
  | ConfirmResult.notFound => 404
  | ConfirmResult.alreadyConfirmed _ => 200
  | ConfirmResult.alreadyExpired _ => 410
  | ConfirmResult.invalidStatus _ => 400
  | ConfirmResult.expiredOnConfirm _ => 410
  | ConfirmResult.confirmedOk _ => 200

/-- Whether the outcome is the `AlreadyExpired` error: the 410 response
`'Reservation has expired and cannot be confirmed'` returned when the
stored status is already `expired`. -/
def ConfirmResult.isAlreadyExpired : ConfirmResult → Bool
  | ConfirmResult.alreadyExpired _ => true
  | _ => false

/-- The `ReservationData` included in the response body, when any. -/
def ConfirmResult.carriedData : ConfirmResult → Option ReservationData
  | ConfirmResult.notFound => none
  | ConfirmResult.alreadyConfirmed r => some r
  | ConfirmResult.alreadyExpired r => some r
  | ConfirmResult.invalidStatus r => some r
  | ConfirmResult.expiredOnConfirm r => some r
  | ConfirmResult.confirmedOk r => some r

/-- The `POST /confirm/:id` handler of `src/cf-workflow/src/index.ts`,
as a function of the stored record and the current time.  Returns the
outcome and the new stored value.  Branches in source order:
missing key → 404; `confirmed` → 200 no-op; `expired` → 410 error;
any status other than `held` → 400; `held` with `now > expiresAt` →
write the expired record and return 410 with it; `held` in the window
→ write the confirmed record and return 200 with it. -/
def confirmReservation (stored : Option ReservationData) (now : Nat) :
    ConfirmResult × Option ReservationData :=
  match stored with
  | none => (ConfirmResult.notFound, none)
  | some r =>
    if r.status = ReservationStatus.confirmed then
      (ConfirmResult.alreadyConfirmed r, some r)
    else if r.status = ReservationStatus.expired then
      (ConfirmResult.alreadyExpired r, some r)
    else if r.status ≠ ReservationStatus.held then
      (ConfirmResult.invalidStatus r, some r)
    else if r.expiresAt < now then
      let expiredData : ReservationData :=
        { r with status := ReservationStatus.expired, expiredAt := some now }
      (ConfirmResult.expiredOnConfirm expiredData, some expiredData)
    else
      let confirmedData : ReservationData :=
        { r with status := ReservationStatus.confirmed, confirmedAt := some now }
      (ConfirmResult.confirmedOk confirmedData, some confirmedData)

/-- Outcome of the `finalize-reservation` step body: the step returns an
object `\x7b status \x7d` where the status is `'not_found'` when the KV
key is absent, and otherwise the (possibly updated) reservation status. -/
inductive FinalizeOutcome : Type
  | notFound : FinalizeOutcome
  | statusIs : ReservationStatus → FinalizeOutcome
  deriving DecidableEq, Repr

/-- The `finalize-reservation` step body of the Cloudflare
`ReservationWorkflow.run`, as a function of the stored record and the
current time.  Branches in source order: missing key → `not_found`
result, no write; `confirmed` → no write; `held` → write the record with
status `expired` and `expiredAt = now`; any other status → no write,
report that status. -/
def finalizeReservation (stored : Option ReservationData) (now : Nat) :
    FinalizeOutcome × Option ReservationData :=
  match stored with
  | none => (FinalizeOutcome.notFound, none)
  | some r =>
    if r.status = ReservationStatus.confirmed then
      (FinalizeOutcome.statusIs ReservationStatus.confirmed, some r)
    else if r.status = ReservationStatus.held then
      let expiredData : ReservationData :=
        { r with status := ReservationStatus.expired, expiredAt := some now }
      (FinalizeOutcome.statusIs ReservationStatus.expired, some expiredData)
    else
      (FinalizeOutcome.statusIs r.status, some r)

/-- Sleep duration of the Cloudflare workflow between create-hold and
finalize: `step.sleep('wait-for-confirmation', '15 minutes')`. -/
def cfSleepMs : Nat := 15 * 60 * 1000

/-- Wait duration of the AWS durable function between STEP 1 and
STEP 2: `context.wait(\x7b seconds: 30 \x7d)`. -/
def awsWaitSeconds : Nat := 30

/-- STEP 2 of the AWS durable function: unconditionally expire the
checkpointed STEP 1 record (`...reservation, status: "expired",
expiredAt`). -/
def awsFinalize (reservation : ReservationData) (now : Nat) : ReservationData :=
  { reservation with status := ReservationStatus.expired, expiredAt := some now }

/-- One complete run of the AWS durable function starting at
`startTime`: STEP 1 creates the hold, the wait suspends for
`awsWaitSeconds`, and STEP 2 runs at the resume time.  Returns the
held record, the time at which STEP 2 runs, and STEP 2's result. -/
def awsRun (reservationId seatId : String) (userId : Option String)
    (startTime : Nat) : ReservationData × Nat × ReservationData :=
  let reservation := createHold reservationId seatId userId startTime
  let resumeTime := startTime + awsWaitSeconds * 1000
  (reservation, resumeTime, awsFinalize reservation resumeTime)

/-- One complete run of the Cloudflare workflow with no concurrent
confirm, starting at `startTime`: create-hold, sleep `cfSleepMs`, then
the finalize step at the resume time.  Returns the held record, the
time at which finalize runs, and the post-finalize store. -/
def cfRun (reservationId seatId : String) (userId : Option String)
    (startTime : Nat) : ReservationData × Nat × Option ReservationData :=
  let reservation := createHold reservationId seatId userId startTime
  let resumeTime := startTime + cfSleepMs
  (reservation, resumeTime,
    (finalizeReservation (some reservation) resumeTime).2)

/-- The fields of a reservation that are immutable after creation:
`reservationId`, `seatId`, `userId`, `createdAt`, `expiresAt`. -/
def sameFrame (a b : ReservationData) : Prop :=
  a.reservationId = b.reservationId ∧ a.seatId = b.seatId ∧
  a.userId = b.userId ∧ a.createdAt = b.createdAt ∧
  a.expiresAt = b.expiresAt

instance : DecidablePred (fun p : ReservationData × ReservationData => sameFrame p.1 p.2) := by
  intro p
  unfold sameFrame
  infer_instance

/-- A concrete held record used by the witnesses below. -/
def sampleHeld : ReservationData :=
  createHold "res-1" "A1" (some "user-1") 1000

/-- `sampleHeld` with terminal status `confirmed`, for witnesses. -/
def sampleConfirmed : ReservationData :=
  { sampleHeld with status := ReservationStatus.confirmed,
                    confirmedAt := some 2000 }

/-- `sampleHeld` with terminal status `expired`, for witnesses. -/
def sampleExpired : ReservationData :=
  { sampleHeld with status := ReservationStatus.expired,
                    expiredAt := some 901000 }

/-- Claim C1: the Cloudflare finalize step satisfies the §4.5 contract:
on a `confirmed` record it is a no-op (never overrides `confirmed`),
on a `held` record it transitions to `expired` and stamps `expiredAt`,
and on an `expired` record it is a no-op. -/
theorem finalize_meets_contract (r : ReservationData) (now : Nat) :
    (r.status = ReservationStatus.confirmed →
      finalizeReservation (some r) now =
        (FinalizeOutcome.statusIs ReservationStatus.confirmed, some r)) ∧
    (r.status = ReservationStatus.held →
      finalizeReservation (some r) now =
        (FinalizeOutcome.statusIs ReservationStatus.expired,
          some { r with status := ReservationStatus.expired,
                        expiredAt := some now })) ∧
    (r.status = ReservationStatus.expired →
      finalizeReservation (some r) now =
        (FinalizeOutcome.statusIs ReservationStatus.expired, some r)) := by
  refine ⟨fun h => ?_, fun h => ?_, fun h => ?_⟩ <;>
    simp [finalizeReservation, h]

/-- Witness for C1: the contract evaluated on a concrete held record. -/
theorem finalize_meets_contract_witness :
    finalizeReservation (some sampleHeld) 901000 =
      (FinalizeOutcome.statusIs ReservationStatus.expired,
        some { sampleHeld with status := ReservationStatus.expired,
                               expiredAt := some 901000 }) :=
  (finalize_meets_contract sampleHeld 901000).2.1 rfl

/-- Claim C2: a confirm call on a `held` record arriving strictly after
`expiresAt` writes the record with status `expired` and `expiredAt`
stamped with the call time, and its outcome is never the confirmed one. -/
theorem confirm_after_deadline_expires (r : ReservationData) (now : Nat)
    (hheld : r.status = ReservationStatus.held)
    (hlate : r.expiresAt < now) :
    (confirmReservation (some r) now).2 =
      some { r with status := ReservationStatus.expired,
                    expiredAt := some now } ∧
    ∀ c : ReservationData,
      (confirmReservation (some r) now).1 ≠ ConfirmResult.confirmedOk c := by
  constructor
  · simp [confirmReservation, hheld, hlate]
  · intro c
    simp [confirmReservation, hheld, hlate]

/-- Witness for C2: confirm at time 901001 on a concrete record
expiring at 901000 writes the expired record. -/
theorem confirm_after_deadline_expires_witness :
    sampleHeld.status = ReservationStatus.held ∧
    sampleHeld.expiresAt < 901001 ∧
    (confirmReservation (some sampleHeld) 901001).2 =
      some { sampleHeld with status := ReservationStatus.expired,
                             expiredAt := some 901001 } :=
  ⟨rfl, by decide,
    (confirm_after_deadline_expires sampleHeld 901001 rfl (by decide)).1⟩

/-- Claim C3: terminal states are absorbing: confirm on a `confirmed`
record returns it unchanged (no write), confirm on an `expired` record
fails without modifying it, and finalize on either terminal state
leaves the store unchanged. -/
theorem terminal_states_absorbing (r : ReservationData) (now : Nat)
    (hterm : r.status = ReservationStatus.confirmed ∨
             r.status = ReservationStatus.expired) :
    (confirmReservation (some r) now).2 = some r ∧
    (finalizeReservation (some r) now).2 = some r ∧
    (r.status = ReservationStatus.confirmed →
      (confirmReservation (some r) now).1 = ConfirmResult.alreadyConfirmed r) ∧
    (r.status = ReservationStatus.expired →
      (confirmReservation (some r) now).1 = ConfirmResult.alreadyExpired r) := by
  rcases hterm with h | h <;>
    refine ⟨?_, ?_, fun hc => ?_, fun he => ?_⟩ <;>
    simp_all [confirmReservation, finalizeReservation, h]

/-- Witness for C3: the absorbing property evaluated on a concrete
confirmed record. -/
theorem terminal_states_absorbing_witness :
    (confirmReservation (some sampleConfirmed) 950000).2 = some sampleConfirmed ∧
    (finalizeReservation (some sampleConfirmed) 950000).2 = some sampleConfirmed ∧
    (sampleConfirmed.status = ReservationStatus.confirmed →
      (confirmReservation (some sampleConfirmed) 950000).1 =
        ConfirmResult.alreadyConfirmed sampleConfirmed) ∧
    (sampleConfirmed.status = ReservationStatus.expired →
      (confirmReservation (some sampleConfirmed) 950000).1 =
        ConfirmResult.alreadyExpired sampleConfirmed) :=
  terminal_states_absorbing sampleConfirmed 950000 (Or.inl rfl)

/-- Claim C4: a confirm call on a `held` record arriving at or before
`expiresAt` writes and returns the record with status `confirmed` and
`confirmedAt` stamped with the call time. -/
theorem confirm_in_window_confirms (r : ReservationData) (now : Nat)
    (hheld : r.status = ReservationStatus.held)
    (hin : now ≤ r.expiresAt) :
    confirmReservation (some r) now =
      (ConfirmResult.confirmedOk
        { r with status := ReservationStatus.confirmed,
                 confirmedAt := some now },
       some { r with status := ReservationStatus.confirmed,
                     confirmedAt := some now }) := by
  simp [confirmReservation, hheld, Nat.not_lt.mpr hin]

/-- Witness for C4: confirm at time 6000 (5 seconds after creation at
1000) on `sampleHeld`, which expires at 901000. -/
theorem confirm_in_window_confirms_witness :
    confirmReservation (some sampleHeld) 6000 =
      (ConfirmResult.confirmedOk
        { sampleHeld with status := ReservationStatus.confirmed,
                          confirmedAt := some 6000 },
       some { sampleHeld with status := ReservationStatus.confirmed,
                              confirmedAt := some 6000 }) :=
  confirm_in_window_confirms sampleHeld 6000 rfl (by decide)

/-- Claim C5 (refuted on the AWS variant): the AWS durable function
waits only 30 seconds between STEP 1 and STEP 2 while the hold lasts
15 minutes, so its finalize step runs strictly before the reservation's
`expiresAt`; the Cloudflare workflow, sleeping the full 15 minutes,
resumes exactly at `expiresAt`. -/
theorem aws_finalize_runs_before_expiry (reservationId seatId : String)
    (userId : Option String) (startTime : Nat) :
    (awsRun reservationId seatId userId startTime).2.1 <
      (awsRun reservationId seatId userId startTime).1.expiresAt ∧
    (cfRun reservationId seatId userId startTime).2.1 =
      (cfRun reservationId seatId userId startTime).1.expiresAt := by
  constructor
  · show startTime + awsWaitSeconds * 1000 < startTime + holdDurationMs
    simp [awsWaitSeconds, holdDurationMs]
  · rfl

/-- Claim C6: `createHold` produces a record with status `held`,
`createdAt = now`, and `expiresAt = createdAt + holdDuration`, the hold
duration being 15 minutes in milliseconds. -/
theorem createHold_fields (reservationId seatId : String)
    (userId : Option String) (now : Nat) :
    (createHold reservationId seatId userId now).status =
        ReservationStatus.held ∧
    (createHold reservationId seatId userId now).createdAt = now ∧
    (createHold reservationId seatId userId now).expiresAt =
        (createHold reservationId seatId userId now).createdAt +
          holdDurationMs ∧
    holdDurationMs = 15 * 60 * 1000 :=
  ⟨rfl, rfl, rfl, rfl⟩

/-- Claim C7: on an existing reservation, confirm yields the
`AlreadyExpired` error exactly when the stored status at read time is
`expired`; in every other case the response carries a
`ReservationData`. -/
theorem confirm_alreadyExpired_iff (r : ReservationData) (now : Nat) :
    ((confirmReservation (some r) now).1.isAlreadyExpired = true ↔
      r.status = ReservationStatus.expired) ∧
    (r.status ≠ ReservationStatus.expired →
      ∃ d : ReservationData,
        (confirmReservation (some r) now).1.carriedData = some d) := by
  constructor
  · cases hs : r.status <;>
      rcases Nat.lt_or_ge r.expiresAt now with hlate | hlate <;>
      first
        | (simp [confirmReservation, ConfirmResult.isAlreadyExpired, hs,
            hlate]; done)
        | (simp [confirmReservation, ConfirmResult.isAlreadyExpired, hs,
            Nat.not_lt.mpr hlate]; done)
  · intro _
    cases hs : r.status <;>
      rcases Nat.lt_or_ge r.expiresAt now with hlate | hlate <;>
      first
        | (simp [confirmReservation, ConfirmResult.carriedData, hs,
            hlate]; done)
        | (simp [confirmReservation, ConfirmResult.carriedData, hs,
            Nat.not_lt.mpr hlate]; done)

/-- Witness for C7: on a held record in the window, confirm does not
report `AlreadyExpired` and the response carries a record. -/
theorem confirm_alreadyExpired_iff_witness :
    sampleHeld.status ≠ ReservationStatus.expired ∧
    ∃ d : ReservationData,
      (confirmReservation (some sampleHeld) 6000).1.carriedData = some d :=
  ⟨by decide,
    (confirm_alreadyExpired_iff sampleHeld 6000).2 (by decide)⟩

/-- Claim C8: every confirm or finalize transition on an existing
record preserves `reservationId`, `seatId`, `userId`, `createdAt` and
`expiresAt`, and modifies at most the status together with the one
matching terminal timestamp (`confirmedAt` on confirmation, `expiredAt`
on expiry); otherwise the record is returned unchanged. -/
theorem transitions_preserve_frame (r : ReservationData) (now : Nat) :
    (∀ r' : ReservationData, (confirmReservation (some r) now).2 = some r' →
      sameFrame r r' ∧
      (r' = r ∨
       (r'.status = ReservationStatus.confirmed ∧
         r'.expiredAt = r.expiredAt) ∨
       (r'.status = ReservationStatus.expired ∧
         r'.confirmedAt = r.confirmedAt))) ∧
    (∀ r' : ReservationData, (finalizeReservation (some r) now).2 = some r' →
      sameFrame r r' ∧
      (r' = r ∨
       (r'.status = ReservationStatus.expired ∧
         r'.confirmedAt = r.confirmedAt))) := by
  constructor <;> intro r' hr' <;>
    cases hs : r.status <;>
    by_cases hlate : r.expiresAt < now <;>
    simp_all [confirmReservation, finalizeReservation, sameFrame, hs, hlate] <;>
    simp [← hr', hs]

/-- The record written by a confirm at time 6000 on `sampleHeld`. -/
def sampleAfterConfirm : ReservationData :=
  { sampleHeld with status := ReservationStatus.confirmed,
                    confirmedAt := some 6000 }

/-- Witness for C8: the frame condition evaluated on a confirm in the
window on a concrete held record. -/
theorem transitions_preserve_frame_witness :
    sameFrame sampleHeld sampleAfterConfirm ∧
    (sampleAfterConfirm = sampleHeld ∨
     (sampleAfterConfirm.status = ReservationStatus.confirmed ∧
       sampleAfterConfirm.expiredAt = sampleHeld.expiredAt) ∨
     (sampleAfterConfirm.status = ReservationStatus.expired ∧
       sampleAfterConfirm.confirmedAt = sampleHeld.confirmedAt)) :=
  (transitions_preserve_frame sampleHeld 6000).1 sampleAfterConfirm (by decide)

/-- Claim C9: a confirm call on a held record past its deadline is not
atomic: it writes the expired record to the store (changing it) and at
the same time reports an error (HTTP status at least 400) to the
caller. -/
theorem confirm_late_writes_and_errors (r : ReservationData) (now : Nat)
    (hheld : r.status = ReservationStatus.held)
    (hlate : r.expiresAt < now) :
    (confirmReservation (some r) now).2 =
      some { r with status := ReservationStatus.expired,
                    expiredAt := some now } ∧
    (confirmReservation (some r) now).2 ≠ some r ∧
    400 ≤ (confirmReservation (some r) now).1.httpStatus := by
  have h2 : (confirmReservation (some r) now).2 =
      some { r with status := ReservationStatus.expired,
                    expiredAt := some now } := by
    simp [confirmReservation, hheld, hlate]
  refine ⟨h2, ?_, ?_⟩
  · rw [h2]
    intro hcontra
    have hst := congrArg (fun o : Option ReservationData =>
      Option.map ReservationData.status o) hcontra
    simp [hheld] at hst
  · simp [confirmReservation, hheld, hlate, ConfirmResult.httpStatus]

/-- Witness for C9: the non-atomic error outcome evaluated on a
concrete held record confirmed one millisecond past its deadline. -/
theorem confirm_late_writes_and_errors_witness :
    (confirmReservation (some sampleHeld) 901001).2 =
      some { sampleHeld with status := ReservationStatus.expired,
                             expiredAt := some 901001 } ∧
    (confirmReservation (some sampleHeld) 901001).2 ≠ some sampleHeld ∧
    400 ≤ (confirmReservation (some sampleHeld) 901001).1.httpStatus :=
  confirm_late_writes_and_errors sampleHeld 901001 rfl (by decide)

/-- Claim C10: when the reservation record is absent from the store,
the finalize step returns the `not_found` outcome as an ordinary value
(the step body does not throw, so the workflow run does not fail) and
writes nothing to the store. -/
theorem finalize_missing_record (now : Nat) :
    finalizeReservation none now = (FinalizeOutcome.notFound, none) :=
  rfl
